import Mathlib

/-!
# Verification of the silayan_laundry core logic

Shallow embedding of the repository's core business logic:

* the Count Store (`src/hooks/useLaundryItems.ts`),
* the Submission Recorder (`AnalyticsDB.recordSubmission` in
  `src/lib/services/AnalyticsDB.ts`),
* the Upload Client retry loop (`HttpDiscordService.uploadImage` in
  `src/lib/services/DiscordService.ts`),
* the Image Compositor (`CanvasImageGenerator` in the ImageGenerator service,
  and the legacy inline `generateImage` of `src/app/page.tsx`).

JavaScript objects used as string-keyed maps are modelled as insertion-ordered
association lists (`{...prev, [k]: v}` replaces the value in place for an
existing key and appends a fresh key at the end).  JavaScript numbers entering
`setCount` are modelled by `JSNum` (NaN / ±Infinity / a finite rational);
counts stored by the Count Store are integers.
-/

namespace Laundry

/-! ## JS object model: insertion-ordered association list -/

/-- The `ItemCounts` map (`Record<string, number>`), holding integer counts. -/
abbrev ItemCounts := List (String × Int)

/-- Property read `m[k]` on a JS object: value of the first (only) binding. -/
def lookup (m : ItemCounts) (k : String) : Option Int :=
  (m.find? (fun p => p.1 == k)).map (·.2)

/-- The JS spread-update `{...m, [k]: v}`: an existing key keeps its position
and gets the new value, a fresh key is appended at the end. -/
def setKey (m : ItemCounts) (k : String) (v : Int) : ItemCounts :=
  if m.any (fun p => p.1 == k) then
    m.map (fun p => if p.1 == k then (k, v) else p)
  else
    m ++ [(k, v)]

/-- Key removal `const { [k]: _, ...rest } = m`. -/
def removeKey (m : ItemCounts) (k : String) : ItemCounts :=
  m.filter (fun p => p.1 != k)

/-- The JS expression `m[k] || 0`: an absent key — and the falsy value `0`
itself — yields `0`, every other number passes through. -/
def jsOrZero (v : Option Int) : Int :=
  match v with
  | none => 0
  | some n => if n == 0 then 0 else n

/-- JavaScript `String.prototype.trim`: strip leading and trailing
whitespace. -/
def jsTrim (s : String) : String :=
  ⟨((s.data.dropWhile Char.isWhitespace).reverse.dropWhile Char.isWhitespace).reverse⟩

/-! ## JS numbers entering `setCount` -/

/-- A JavaScript number as far as `setCount`'s sanitization observes it:
`NaN`, an infinity, or a finite value (modelled as a rational). -/
inductive JSNum where
  | nan
  | posInf
  | negInf
  | finite (q : ℚ)
deriving DecidableEq

/-- `Number.isFinite`. -/
def JSNum.isFin : JSNum → Bool
  | .finite _ => true
  | _ => false

/-- `Math.trunc` on a finite number: round toward zero. -/
def truncQ (q : ℚ) : Int :=
  if 0 ≤ q then ⌊q⌋ else ⌈q⌉

/-- The sanitization in `setCount` (useLaundryItems.ts lines 71–73):
`Number.isFinite(value) ? Math.max(0, Math.trunc(value)) : 0`. -/
def sanitizeSetCount (value : JSNum) : Int :=
  if value.isFin then
    match value with
    | .finite q => max 0 (truncQ q)
    | _ => 0
  else 0

/-! ## Count Store state and operations (`src/hooks/useLaundryItems.ts`) -/

/-- The two maps held by `useLaundryItems`. -/
structure CountStore where
  items : ItemCounts
  customItems : ItemCounts
deriving DecidableEq

/-- Category data as consumed by the hook: only item names matter here
(`Record<string, Array<{ name: string }>>`). -/
abbrev Categories := List (String × List String)

/-- `initializeItems`: every item of every category set to 0. -/
def initializeItems (categories : Categories) : ItemCounts :=
  categories.foldl (fun all cat => cat.2.foldl (fun all name => setKey all name 0) all) []

/-- Initial hook state: predefined items all at 0, custom map empty. -/
def initialStore (categories : Categories) : CountStore :=
  { items := initializeItems categories, customItems := [] }

/-- `updateCount(name, delta, isCustom)`:
`setFn(prev => ({...prev, [name]: Math.max(0, (prev[name] || 0) + delta)}))`. -/
def updateCount (s : CountStore) (name : String) (delta : Int) (isCustom : Bool) : CountStore :=
  if isCustom then
    { s with customItems :=
        setKey s.customItems name (max 0 (jsOrZero (lookup s.customItems name) + delta)) }
  else
    { s with items :=
        setKey s.items name (max 0 (jsOrZero (lookup s.items name) + delta)) }

/-- `setCount(name, value, isCustom)`: sanitize, then
`setFn(prev => ({...prev, [name]: sanitizedValue}))`. -/
def setCount (s : CountStore) (name : String) (value : JSNum) (isCustom : Bool) : CountStore :=
  let sanitizedValue := sanitizeSetCount value
  if isCustom then
    { s with customItems := setKey s.customItems name sanitizedValue }
  else
    { s with items := setKey s.items name sanitizedValue }

/-- `resetCounts()`: `window.confirm` result passed in as `confirmed`. -/
def resetCounts (s : CountStore) (categories : Categories) (confirmed : Bool) : CountStore :=
  if confirmed then
    { items := initializeItems categories, customItems := [] }
  else s

/-- `addCustomItem(name)`: trim, bail out on the falsy empty string, then
`setCustomItems(prev => ({...prev, [trimmedName]: 0}))`. -/
def addCustomItem (s : CountStore) (name : String) : CountStore :=
  let trimmedName := jsTrim name
  if trimmedName = "" then s
  else { s with customItems := setKey s.customItems trimmedName 0 }

/-- `removeCustomItem(name)`: drop the binding, keep the rest. -/
def removeCustomItem (s : CountStore) (name : String) : CountStore :=
  { s with customItems := removeKey s.customItems name }

/-- The map an operation with the given `isCustom` flag targets. -/
def targetMap (s : CountStore) (isCustom : Bool) : ItemCounts :=
  if isCustom then s.customItems else s.items

/-- One user-triggered Count Store operation, as a step relation. -/
inductive Step (categories : Categories) : CountStore → CountStore → Prop where
  | update (s : CountStore) (name : String) (delta : Int) (isCustom : Bool) :
      Step categories s (updateCount s name delta isCustom)
  | set (s : CountStore) (name : String) (value : JSNum) (isCustom : Bool) :
      Step categories s (setCount s name value isCustom)
  | reset (s : CountStore) (confirmed : Bool) :
      Step categories s (resetCounts s categories confirmed)
  | add (s : CountStore) (name : String) :
      Step categories s (addCustomItem s name)
  | remove (s : CountStore) (name : String) :
      Step categories s (removeCustomItem s name)

/-- Every binding of the map holds a non-negative count. -/
def NonNeg (m : ItemCounts) : Prop := ∀ p ∈ m, 0 ≤ p.2

instance (m : ItemCounts) : Decidable (NonNeg m) :=
  inferInstanceAs (Decidable (∀ p ∈ m, 0 ≤ p.2))

/-- The Count Store invariant: both maps hold only non-negative counts. -/
def StoreInv (s : CountStore) : Prop := NonNeg s.items ∧ NonNeg s.customItems

instance (s : CountStore) : Decidable (StoreInv s) :=
  inferInstanceAs (Decidable (_ ∧ _))

/-! ## Submission Recorder (`AnalyticsDB.recordSubmission`)

The SQLite backend is modelled as explicit table state.  Each `INSERT`
statement may fail; a run is driven by a failure oracle giving the outcome of
the n-th insert of the call (index 0 = the parent `submissions` insert,
indices 1,2,… = the `submission_items` inserts in order).  better-sqlite3's
`db.transaction` wraps only the child-item loop: if a child insert throws,
the child rows of that transaction are rolled back; the parent insert ran
earlier in autocommit mode, so it stays committed. -/

/-- Options object of `recordSubmission` (already destructured with its
defaults: `customerReference = null`, `scenario = null`,
`channelSuccess = true`). -/
structure SubmissionOptions where
  channel : String
  customerReference : Option String
  scenario : Option String
  channelSuccess : Bool
deriving DecidableEq

/-- A row of the `submissions` table. -/
structure SubmissionRow where
  id : Nat
  channel : String
  customer_reference : Option String
  scenario : Option String
  total_items : Nat
  items_with_values : Nat
  channel_success : Bool
deriving DecidableEq

/-- A row of the `submission_items` table. -/
structure SubmissionItemRow where
  submission_id : Nat
  item_name : String
  count : Int
deriving DecidableEq

/-- The analytics database state: next AUTOINCREMENT id and both tables. -/
structure DBState where
  nextId : Nat
  submissions : List SubmissionRow
  submission_items : List SubmissionItemRow
deriving DecidableEq

/-- The body of the `insertMany` transaction: run the child inserts in order;
`none` means one of them threw, in which case the transaction rolls back and
no child row is committed. -/
def childInserts (submissionId : Nat) (items : List (String × Int))
    (oracle : Nat → Bool) (idx : Nat) : Option (List SubmissionItemRow) :=
  match items with
  | [] => some []
  | (name, count) :: rest =>
    if oracle idx then none
    else (childInserts submissionId rest oracle (idx + 1)).map
      (fun rows => ⟨submissionId, name, count⟩ :: rows)

/-- `AnalyticsDB.recordSubmission(counts, options)` under a given insert
failure oracle.  The first component is `some submissionId` on normal return
and `none` when an insert threw (the exception propagates to the caller);
the second component is the database state after the call. -/
def recordSubmission (db : DBState) (counts : ItemCounts)
    (opts : SubmissionOptions) (oracle : Nat → Bool) : Option Nat × DBState :=
  let itemsWithValues := counts.filter (fun p => 0 < p.2)
  if oracle 0 then
    -- the parent INSERT itself threw: nothing was written
    (none, db)
  else
    let submissionId := db.nextId
    let row : SubmissionRow :=
      ⟨submissionId, opts.channel, opts.customerReference, opts.scenario,
        counts.length, itemsWithValues.length, opts.channelSuccess⟩
    let db1 : DBState :=
      { db with nextId := db.nextId + 1, submissions := db.submissions ++ [row] }
    match childInserts submissionId itemsWithValues oracle 1 with
    | none => (none, db1)
    | some rows => (some submissionId,
        { db1 with submission_items := db1.submission_items ++ rows })

/-- The parent row `recordSubmission` inserts for the given inputs. -/
def parentRowOf (db : DBState) (counts : ItemCounts) (opts : SubmissionOptions) :
    SubmissionRow :=
  ⟨db.nextId, opts.channel, opts.customerReference, opts.scenario,
    counts.length, (counts.filter (fun p => 0 < p.2)).length, opts.channelSuccess⟩

/-- The child rows `recordSubmission` inserts for the given inputs: one row
per entry of `counts` with a value `> 0`. -/
def childRowsOf (db : DBState) (counts : ItemCounts) : List SubmissionItemRow :=
  (counts.filter (fun p => 0 < p.2)).map (fun p => ⟨db.nextId, p.1, p.2⟩)

/-! ## Upload Client (`HttpDiscordService.uploadImage`)

The network is modelled by an oracle giving the outcome of each delivery
attempt.  `attemptUpload` turns an outcome into either a returned
`DiscordUploadResult` or a thrown exception (`none`), exactly following the
source: a non-ok HTTP response returns a failure result carrying
`ERROR_MESSAGES.DISCORD_UPLOAD_FAILED` and the status code, a timeout
(`AbortError`) returns a failure result with error `"Request timeout"` and
status 408, and any other thrown transport error is re-thrown. -/

/-- Outcome of one `fetch` of the webhook. -/
inductive AttemptOutcome where
  | ok (statusCode : Nat) (messageId : Option String)
  | httpError (statusCode : Nat)
  | timeout
  | exn
deriving DecidableEq

/-- `DiscordUploadResult` (lib/types/laundry.ts). -/
structure DiscordUploadResult where
  success : Bool
  messageId : Option String
  error : Option String
  statusCode : Option Nat
deriving DecidableEq

/-- `ERROR_MESSAGES.DISCORD_UPLOAD_FAILED` (lib/constants.ts). -/
def DISCORD_UPLOAD_FAILED : String := "Discord webhook request failed"

/-- `ERROR_MESSAGES.DISCORD_WEBHOOK_NOT_SET` (lib/constants.ts). -/
def DISCORD_WEBHOOK_NOT_SET : String := "DISCORD_WEBHOOK_URL is not set"

/-- `DISCORD_CONFIG.MAX_FILE_SIZE_BYTES` (lib/constants.ts): 8 MB. -/
def MAX_FILE_SIZE_BYTES : Nat := 8 * 1024 * 1024

/-- The generic message returned once every attempt has been used up. -/
def EXHAUSTED_RETRIES : String := "Upload failed after all retry attempts"

/-- `attemptUpload`: `some result` models a returned result, `none` a thrown
transport error (re-thrown by the inner catch). -/
def attemptUpload (outcome : AttemptOutcome) : Option DiscordUploadResult :=
  match outcome with
  | .ok statusCode messageId =>
      some { success := true, messageId := messageId, error := none,
             statusCode := some statusCode }
  | .httpError statusCode =>
      some { success := false, messageId := none,
             error := some DISCORD_UPLOAD_FAILED, statusCode := some statusCode }
  | .timeout =>
      some { success := false, messageId := none,
             error := some "Request timeout", statusCode := some 408 }
  | .exn => none

/-- The failure result built when the last attempt threw, and also the
unreachable `return` after the loop. -/
def exhaustedResult : DiscordUploadResult :=
  { success := false, messageId := none, error := some EXHAUSTED_RETRIES,
    statusCode := none }

/-- The retry loop
`for (let attempt = 0; attempt <= maxRetries; attempt++) { ... }`.
`fuel` counts the remaining loop iterations permitted by the loop guard
(`maxRetries + 1 - attempt`; the call site starts at `attempt = 0` with fuel
`maxRetries + 1`), so `fuel = 0` is the guard failing and falling through to
the trailing generic return.  The second component counts how many times the
transport (`attemptUpload`, i.e. `fetch`) was invoked. -/
def uploadLoop (oracle : Nat → AttemptOutcome) (maxRetries : Nat) :
    Nat → Nat → DiscordUploadResult × Nat
  | _, 0 => (exhaustedResult, 0)
  | attempt, fuel + 1 =>
    match attemptUpload (oracle attempt) with
    | some result =>
      if result.success then (result, 1)
      else if attempt == maxRetries then (result, 1)
      else
        -- wait retryDelay ms, then retry
        let r := uploadLoop oracle maxRetries (attempt + 1) fuel
        (r.1, r.2 + 1)
    | none =>
      if attempt == maxRetries then (exhaustedResult, 1)
      else
        -- wait retryDelay ms, then retry
        let r := uploadLoop oracle maxRetries (attempt + 1) fuel
        (r.1, r.2 + 1)

/-- `DiscordServiceConfig` as passed to the constructor (the optional fields
may be absent). -/
structure DiscordServiceConfig where
  webhookUrl : String
  maxRetries : Option Nat
  retryDelay : Option Nat
  timeout : Option Nat
deriving DecidableEq

/-- The JS expression `v || d` on an optional number: `undefined` and the
falsy `0` fall back to the default. -/
def jsOrNat (v : Option Nat) (d : Nat) : Nat :=
  match v with
  | none => d
  | some n => if n == 0 then d else n

/-- `validateConfiguration()`: the webhook URL must be set and must pass
`isValidWebhookUrl`.  URL parsing (`new URL`, hostname `discord.com`, path
containing `/api/webhooks/`) is a platform capability, passed in as the
`urlCheck` oracle. -/
def validateConfiguration (urlCheck : String → Bool) (webhookUrl : String) :
    List String :=
  (if webhookUrl = "" then [DISCORD_WEBHOOK_NOT_SET] else []) ++
  (if webhookUrl ≠ "" ∧ urlCheck webhookUrl = false then
    ["Invalid Discord webhook URL format"] else [])

/-- The size-limit error message.  The source interpolates the sizes through
`formatFileSize` (floating-point `toFixed` formatting, not modelled); the
exact text is irrelevant to the claims, only that it is an immediate
validation failure. -/
def fileSizeError (size : Nat) : String :=
  "File size (" ++ toString size ++ " bytes) exceeds Discord limit"

/-- The effective retry bound of a service built from `cfg`: the
constructor applies `{ maxRetries: 3, ...config }`, and the use sites then
read `this.config.maxRetries || 3`. -/
def effMaxRetries (cfg : DiscordServiceConfig) : Nat :=
  jsOrNat (some (cfg.maxRetries.getD 3)) 3

/-- `HttpDiscordService.uploadImage(image, filename, message)` under an
attempt-outcome oracle: configuration validation, then the size pre-check,
then the retry loop.  Returns the result together with the number of
transport invocations. -/
def uploadImage (urlCheck : String → Bool) (cfg : DiscordServiceConfig)
    (imageSize : Nat) (oracle : Nat → AttemptOutcome) :
    DiscordUploadResult × Nat :=
  if validateConfiguration urlCheck cfg.webhookUrl ≠ [] then
    ({ success := false, messageId := none,
       error := some (String.intercalate ", "
         (validateConfiguration urlCheck cfg.webhookUrl)), statusCode := none }, 0)
  else if MAX_FILE_SIZE_BYTES < imageSize then
    ({ success := false, messageId := none,
       error := some (fileSizeError imageSize), statusCode := none }, 0)
  else
    uploadLoop oracle (effMaxRetries cfg) 0 (effMaxRetries cfg + 1)

/-- An attempt outcome that does not produce a success result. -/
def failsAttempt (o : AttemptOutcome) : Bool :=
  match o with
  | .ok _ _ => false
  | _ => true

/-- The error string `uploadImage` reports when the loop ends on the given
final-attempt outcome: the generic exhausted-retries message only for a
thrown transport error; a non-ok response and a timeout surface that
attempt's own error. -/
def finalFailureError : AttemptOutcome → Option String
  | .exn => some EXHAUSTED_RETRIES
  | .httpError _ => some DISCORD_UPLOAD_FAILED
  | .timeout => some "Request timeout"
  | .ok _ _ => none

/-! ## Image Compositor

Two implementations exist in the repository: the `CanvasImageGenerator`
service (ImageGenerator.ts) and the legacy inline `generateImage` of
`src/app/page.tsx`.  Drawing is modelled as the list of text commands issued
against the canvas. -/

/-- An item of the catalog with its template coordinates. -/
structure CatalogItem where
  name : String
  x : Int
  y : Int
deriving DecidableEq

/-- `LaundryCategory`: category name to items. -/
abbrev LaundryCategory := List (String × List CatalogItem)

/-- One `ctx.fillText(text, x, y)` call. -/
structure TextCmd where
  text : String
  x : Int
  y : Int
deriving DecidableEq

/-- The `drawIfPositive` helper of `CanvasImageGenerator.drawItemCounts`:
emit the text exactly when `value > 0`. -/
def drawIfPositive (value : Int) (x y : Int) : List TextCmd :=
  if 0 < value then [⟨toString value, x, y⟩] else []

/-- `CanvasImageGenerator.drawItemCounts`: for every item of every category,
look the count up (`counts[item.name] || 0`) and draw it if positive. -/
def drawItemCounts (counts : ItemCounts) (categories : LaundryCategory) :
    List TextCmd :=
  (categories.map Prod.snd).flatten.flatMap
    (fun item => drawIfPositive (jsOrZero (lookup counts item.name)) item.x item.y)

/-- Category lookup `categories[k]` of page.tsx (the static catalog holds the
three keys it reads; an absent key yields no items). -/
def lookupCategory (categories : LaundryCategory) (k : String) : List CatalogItem :=
  ((categories.find? (fun p => p.1 == k)).map (·.2)).getD []

/-- The item-count drawing of the legacy `generateImage` in
`src/app/page.tsx` (lines 67–75): for the three hard-coded categories it
draws `String(data[item.name] || 0)` at every item position,
unconditionally — zero counts included. -/
def pageDrawItemCounts (data : ItemCounts) (categories : LaundryCategory) :
    List TextCmd :=
  (lookupCategory categories "Regular Laundry").map
      (fun item => ⟨toString (jsOrZero (lookup data item.name)), item.x, item.y⟩) ++
  (lookupCategory categories "Home Items").map
      (fun item => ⟨toString (jsOrZero (lookup data item.name)), item.x, item.y⟩) ++
  (lookupCategory categories "Other Items").map
      (fun item => ⟨toString (jsOrZero (lookup data item.name)), item.x, item.y⟩)

/-- `ERROR_MESSAGES.IMAGE_GENERATION_FAILED` (lib/constants.ts). -/
def IMAGE_GENERATION_FAILED : String := "Failed to generate PNG"

/-- The environment a `generateImage` run observes: which of the fallible
platform steps succeed, and the clock. -/
structure RenderEnv where
  templateLoads : Bool
  ctxAvailable : Bool
  signatureLoads : Bool
  encodeOk : Bool
  today : String
  year : Nat
  month : Nat
  day : Nat
  hours : Nat
  minutes : Nat
  seconds : Nat
deriving DecidableEq

/-- `ImageGenerationOptions` with the constructor defaults applied. -/
structure ImageGenerationOptions where
  templatePath : String
  signaturePath : String
deriving DecidableEq

/-- The composed picture, as the drawing commands issued on the canvas. -/
structure ComposedImage where
  texts : List TextCmd
  signatureDrawn : Bool
deriving DecidableEq

/-- `ImageGenerationResult` (lib/types/laundry.ts); the blob is represented
by the composed drawing. -/
structure ImageGenerationResult where
  success : Bool
  image : Option ComposedImage
  error : Option String
  filename : Option String
deriving DecidableEq

/-- `String(n).padStart(2, '0')`. -/
def pad2 (n : Nat) : String :=
  if n < 10 then "0" ++ toString n else toString n

/-- `CanvasImageGenerator.generateFilename()`. -/
def generateFilename (env : RenderEnv) : String :=
  "laundry-output-" ++ toString env.year ++ pad2 env.month ++ pad2 env.day ++
    pad2 env.hours ++ pad2 env.minutes ++ pad2 env.seconds ++ ".png"

/-- `CanvasImageGenerator.drawSignature`: load the signature; on success draw
it and the date next to it; a load failure is caught, a warning is logged and
composition continues.  Returns the extra commands, the signature flag and
the warnings. -/
def drawSignature (env : RenderEnv) : List TextCmd × Bool × List String :=
  if env.signatureLoads then
    ([⟨env.today, 850, 1214⟩], true, [])
  else
    ([], false, ["Failed to load signature image:"])

/-- `CanvasImageGenerator.generateImage(counts, categories)`: template load,
canvas/context acquisition, date stamp, item counts, signature, encode.  Any
step modelled as throwing is caught by the surrounding try/catch and turned
into a failure result; the signature step never throws.  The second component
collects `console.warn` output. -/
def generateImage (env : RenderEnv) (opts : ImageGenerationOptions)
    (counts : ItemCounts) (categories : LaundryCategory) :
    ImageGenerationResult × List String :=
  if env.templateLoads = false then
    ({ success := false, image := none,
       error := some ("Failed to load image: " ++ opts.templatePath),
       filename := none }, [])
  else if env.ctxAvailable = false then
    ({ success := false, image := none,
       error := some "Failed to get canvas context", filename := none }, [])
  else
    let dateCmd : TextCmd := ⟨env.today, 250, 250⟩
    let itemCmds := drawItemCounts counts categories
    let (sigCmds, signatureDrawn, warnings) := drawSignature env
    if env.encodeOk = false then
      ({ success := false, image := none,
         error := some IMAGE_GENERATION_FAILED, filename := none }, warnings)
    else
      ({ success := true,
         image := some ⟨dateCmd :: (itemCmds ++ sigCmds), signatureDrawn⟩,
         error := none, filename := some (generateFilename env) }, warnings)

/-! ### Map lemmas -/

theorem setKey_cons_ne (p : String × Int) (m : ItemCounts) (k : String) (v : Int)
    (h : (p.1 == k) = false) :
    setKey (p :: m) k v = p :: setKey m k v := by
  unfold setKey
  simp only [List.any_cons, h, Bool.false_or, List.map_cons]
  by_cases hm : m.any (fun q => q.1 == k)
  · simp [hm, h]
  · simp [hm, h]

theorem setKey_cons_eq (p : String × Int) (m : ItemCounts) (k : String) (v : Int)
    (h : (p.1 == k) = true) :
    ∃ rest, setKey (p :: m) k v = (k, v) :: rest := by
  unfold setKey
  simp only [List.any_cons, h, Bool.true_or, if_pos, List.map_cons]
  exact ⟨m.map (fun q => if q.1 == k then (k, v) else q), rfl⟩

theorem lookup_setKey_self (m : ItemCounts) (k : String) (v : Int) :
    lookup (setKey m k v) k = some v := by
  induction m with
  | nil => simp [setKey, lookup]
  | cons p m ih =>
    by_cases h : (p.1 == k) = true
    · obtain ⟨rest, hr⟩ := setKey_cons_eq p m k v h
      rw [hr]
      simp [lookup, List.find?]
    · rw [setKey_cons_ne p m k v (by simpa using h)]
      unfold lookup at ih ⊢
      simp only [List.find?_cons, Bool.not_eq_true] at *
      rw [show (p.1 == k) = false by simpa using h]
      exact ih

theorem lookup_setKey_other (m : ItemCounts) (k k' : String) (v : Int) (hne : k' ≠ k) :
    lookup (setKey m k v) k' = lookup m k' := by
  induction m with
  | nil =>
    simp only [setKey, List.any_nil, List.nil_append, if_neg Bool.false_ne_true]
    unfold lookup
    simp [List.find?, show (k == k') = false by simpa [BEq.comm] using (Ne.symm hne)]
  | cons p m ih =>
    by_cases h : (p.1 == k) = true
    · have hk : p.1 = k := by simpa using h
      unfold setKey at *
      simp only [List.any_cons, h, Bool.true_or, if_pos, List.map_cons]
      unfold lookup
      simp only [List.find?_cons]
      have hpk' : (p.1 == k') = false := by
        simp [hk, show (k == k') = false by simpa using (Ne.symm hne)]
      rw [show ((k, v).1 == k') = false by simpa using (Ne.symm hne), hpk']
      by_cases hm : (m.any (fun q => q.1 == k)) = true
      · have := ih
        simp only [hm, if_pos] at this
        exact this
      · -- the remainder never mentions k, so the map is the identity on it
        have hmap : m.map (fun q => if q.1 == k then (k, v) else q) = m := by
          have hcongr : m.map (fun q => if q.1 == k then (k, v) else q) = m.map id := by
            apply List.map_congr_left
            intro q hq
            have : (q.1 == k) = false := by
              by_contra hq'
              exact hm (List.any_eq_true.mpr ⟨q, hq, by simpa using hq'⟩)
            simp [this]
          simpa using hcongr
        rw [hmap]
    · rw [setKey_cons_ne p m k v (by simpa using h)]
      unfold lookup at ih ⊢
      simp only [List.find?_cons]
      cases hpk' : (p.1 == k') with
      | true => simp
      | false => exact ih

theorem lookup_removeKey_other (m : ItemCounts) (k k' : String) (hne : k' ≠ k) :
    lookup (removeKey m k) k' = lookup m k' := by
  induction m with
  | nil => rfl
  | cons p m ih =>
    unfold removeKey lookup at *
    by_cases h : (p.1 == k) = true
    · have hk : p.1 = k := by simpa using h
      have hpk' : (p.1 == k') = false := by
        rw [hk]
        exact beq_eq_false_iff_ne.mpr (Ne.symm hne)
      rw [List.filter_cons_of_neg (by simpa using h),
        List.find?_cons_of_neg _ (by simp [hpk'])]
      exact ih
    · have h' : (p.1 == k) = false := by simpa using h
      rw [List.filter_cons_of_pos (by simp [bne, h'])]
      by_cases hpk' : (p.1 == k') = true
      · simp [List.find?_cons, hpk']
      · have hpk'' : (p.1 == k') = false := by simpa using hpk'
        simp only [List.find?_cons, hpk'']
        exact ih

theorem NonNeg_setKey {m : ItemCounts} (hm : NonNeg m) (k : String) {v : Int}
    (hv : 0 ≤ v) : NonNeg (setKey m k v) := by
  unfold setKey
  by_cases h : (m.any (fun p => p.1 == k)) = true
  · simp only [h, if_pos]
    intro p hp
    obtain ⟨q, hq, hfq⟩ := List.mem_map.mp hp
    by_cases hqk : (q.1 == k) = true
    · simp only [hqk, if_pos] at hfq
      simpa [← hfq] using hv
    · simp only [hqk] at hfq
      simp only [Bool.not_eq_true] at hqk
      rw [if_neg (by simp [hqk])] at hfq
      exact hfq ▸ hm q hq
  · simp only [h, if_neg Bool.false_ne_true]
    intro p hp
    rcases List.mem_append.mp hp with h1 | h2
    · exact hm p h1
    · simp only [List.mem_singleton] at h2
      simpa [h2] using hv

theorem NonNeg_removeKey {m : ItemCounts} (hm : NonNeg m) (k : String) :
    NonNeg (removeKey m k) := by
  intro p hp
  exact hm p (List.mem_of_mem_filter hp)

theorem NonNeg_initializeItems (categories : Categories) :
    NonNeg (initializeItems categories) := by
  unfold initializeItems
  have inner : ∀ (names : List String) (acc : ItemCounts), NonNeg acc →
      NonNeg (names.foldl (fun all name => setKey all name 0) acc) := by
    intro names
    induction names with
    | nil => intro acc h; exact h
    | cons n ns ih =>
      intro acc h
      exact ih _ (NonNeg_setKey h n le_rfl)
  have outer : ∀ (cats : Categories) (acc : ItemCounts), NonNeg acc →
      NonNeg (cats.foldl (fun all cat => cat.2.foldl (fun all name => setKey all name 0) all) acc) := by
    intro cats
    induction cats with
    | nil => intro acc h; exact h
    | cons c cs ih =>
      intro acc h
      exact ih _ (inner c.2 acc h)
  exact outer categories [] (by intro p hp; cases hp)

theorem sanitizeSetCount_nonneg (value : JSNum) : 0 ≤ sanitizeSetCount value := by
  unfold sanitizeSetCount
  cases value <;> simp [JSNum.isFin]

theorem truncQ_neg_five : truncQ (-5 : ℚ) = -5 := by
  unfold truncQ
  rw [if_neg (by norm_num)]
  rw [show ((-5 : ℚ)) = ((-5 : ℤ) : ℚ) by norm_num, Int.ceil_intCast]

theorem truncQ_fiftySeven_tenths : truncQ (57 / 10 : ℚ) = 5 := by
  unfold truncQ
  rw [if_pos (by norm_num)]
  norm_num

/-! ## Claim theorems -/

/-- C5: starting from the initial state (every catalog item at 0, custom map
empty), every Count Store operation — `updateCount` with any integer delta,
`setCount` with any numeric value, `addCustomItem`, `removeCustomItem` and a
(confirmed or declined) `resetCounts` — preserves the invariant that every
stored count is non-negative; in particular `updateCount` never drives a
count below 0. -/
theorem countStore_invariant_preserved (categories : Categories) :
    StoreInv (initialStore categories) ∧
    ∀ s s' : CountStore, StoreInv s → Step categories s s' → StoreInv s' := by
  constructor
  · exact ⟨NonNeg_initializeItems categories, fun p hp => absurd hp (List.not_mem_nil p)⟩
  · intro s s' hs hstep
    cases hstep with
    | update name delta isCustom =>
      cases isCustom
      · exact ⟨NonNeg_setKey hs.1 name (le_max_left 0 _), hs.2⟩
      · exact ⟨hs.1, NonNeg_setKey hs.2 name (le_max_left 0 _)⟩
    | set name value isCustom =>
      cases isCustom
      · exact ⟨NonNeg_setKey hs.1 name (sanitizeSetCount_nonneg value), hs.2⟩
      · exact ⟨hs.1, NonNeg_setKey hs.2 name (sanitizeSetCount_nonneg value)⟩
    | reset confirmed =>
      cases confirmed
      · exact hs
      · exact ⟨NonNeg_initializeItems categories, fun p hp => absurd hp (List.not_mem_nil p)⟩
    | add name =>
      by_cases h : jsTrim name = ""
      · simpa [addCustomItem, h] using hs
      · have : addCustomItem s name =
            { s with customItems := setKey s.customItems (jsTrim name) 0 } := by
          simp [addCustomItem, h]
        rw [this]
        exact ⟨hs.1, NonNeg_setKey hs.2 (jsTrim name) le_rfl⟩
    | remove name =>
      exact ⟨hs.1, NonNeg_removeKey hs.2 name⟩

/-- Witness for C5 at a concrete catalog: the initial store satisfies the
invariant and a decrement below zero keeps it. -/
theorem countStore_invariant_preserved_witness :
    StoreInv (initialStore [("Category", ["A"])]) ∧
    StoreInv (updateCount (initialStore [("Category", ["A"])]) "A" (-5) false) :=
  ⟨(countStore_invariant_preserved [("Category", ["A"])]).1,
    (countStore_invariant_preserved [("Category", ["A"])]).2 _ _
      (by decide)
      (Step.update (initialStore [("Category", ["A"])]) "A" (-5) false)⟩

/-- C2 counterexample: the claim says re-adding an existing custom name
leaves the custom map unchanged, but `addCustomItem` unconditionally writes
`0`, so a map holding `"Socks" ↦ 3` is changed (the count is reset). -/
theorem addCustomItem_readd_changes_map :
    addCustomItem ⟨[], [("Socks", 3)]⟩ "Socks" ≠ (⟨[], [("Socks", 3)]⟩ : CountStore) := by
  decide

/-- C2 amended: `addCustomItem(name)` trims whitespace; if the trimmed name
is empty it is a no-op; otherwise it writes the trimmed name into the
custom-counts map with count 0 unconditionally — creating the key if absent
and resetting an existing key's count to 0 (re-adding is NOT
count-preserving) — while every other key and the predefined map are left
unchanged. -/
theorem addCustomItem_spec (s : CountStore) (name : String) :
    (jsTrim name = "" → addCustomItem s name = s) ∧
    (jsTrim name ≠ "" →
      (addCustomItem s name).items = s.items ∧
      lookup (addCustomItem s name).customItems (jsTrim name) = some 0 ∧
      ∀ k, k ≠ jsTrim name →
        lookup (addCustomItem s name).customItems k = lookup s.customItems k) := by
  constructor
  · intro h
    simp [addCustomItem, h]
  · intro h
    have hadd : addCustomItem s name =
        { s with customItems := setKey s.customItems (jsTrim name) 0 } := by
      simp [addCustomItem, h]
    rw [hadd]
    exact ⟨rfl, lookup_setKey_self _ _ _,
      fun k hk => lookup_setKey_other _ _ _ _ hk⟩

/-- Witness for C2 amended: `"  Socks  "` trims to `"Socks"`, which lands at
0 even though it was present at 3, and `"   "` is a no-op. -/
theorem addCustomItem_spec_witness :
    (jsTrim "  Socks  " ≠ "" ∧
      (addCustomItem ⟨[], [("Socks", 3)]⟩ "  Socks  ").items = [] ∧
      lookup (addCustomItem ⟨[], [("Socks", 3)]⟩ "  Socks  ").customItems
        (jsTrim "  Socks  ") = some 0) ∧
    (jsTrim "   " = "" ∧ addCustomItem ⟨[], [("Socks", 3)]⟩ "   " = ⟨[], [("Socks", 3)]⟩) :=
  ⟨⟨by decide,
    ((addCustomItem_spec ⟨[], [("Socks", 3)]⟩ "  Socks  ").2 (by decide)).1,
    ((addCustomItem_spec ⟨[], [("Socks", 3)]⟩ "  Socks  ").2 (by decide)).2.1⟩,
   ⟨by decide, (addCustomItem_spec ⟨[], [("Socks", 3)]⟩ "   ").1 (by decide)⟩⟩

/-- C6: `setCount(name, value)` stores 0 when `value` is not a finite number
and otherwise stores `max(0, truncate(value))` with the fractional part
discarded rather than rounded; concretely `NaN` and `-5` both yield 0 and
`5.7` yields 5. -/
theorem setCount_sanitizes (s : CountStore) (name : String) (isCustom : Bool) :
    (∀ q : ℚ, lookup (targetMap (setCount s name (.finite q) isCustom) isCustom) name
        = some (max 0 (truncQ q))) ∧
    lookup (targetMap (setCount s name .nan isCustom) isCustom) name = some 0 ∧
    lookup (targetMap (setCount s name .posInf isCustom) isCustom) name = some 0 ∧
    lookup (targetMap (setCount s name .negInf isCustom) isCustom) name = some 0 ∧
    lookup (targetMap (setCount s name (.finite (-5)) isCustom) isCustom) name = some 0 ∧
    lookup (targetMap (setCount s name (.finite (57 / 10)) isCustom) isCustom) name
      = some 5 := by
  have hset : ∀ value : JSNum,
      lookup (targetMap (setCount s name value isCustom) isCustom) name
        = some (sanitizeSetCount value) := by
    intro value
    cases isCustom
    · exact lookup_setKey_self s.items name _
    · exact lookup_setKey_self s.customItems name _
  refine ⟨fun q => hset (.finite q), hset .nan, hset .posInf, hset .negInf, ?_, ?_⟩
  · rw [hset (.finite (-5))]
    have : sanitizeSetCount (.finite (-5)) = max 0 (truncQ (-5)) := rfl
    rw [this, truncQ_neg_five]
    rfl
  · rw [hset (.finite (57 / 10))]
    have : sanitizeSetCount (.finite (57 / 10)) = max 0 (truncQ (57 / 10)) := rfl
    rw [this, truncQ_fiftySeven_tenths]
    rfl

/-- C9: on a name absent from the targeted map, `updateCount` and `setCount`
do not fail: the missing count is treated as 0 and the key is created,
holding `max(0, delta)` for `updateCount` and the sanitized value for
`setCount`. -/
theorem absent_key_created (s : CountStore) (name : String) (delta : Int)
    (value : JSNum) (isCustom : Bool)
    (habs : lookup (targetMap s isCustom) name = none) :
    lookup (targetMap (updateCount s name delta isCustom) isCustom) name
      = some (max 0 delta) ∧
    lookup (targetMap (setCount s name value isCustom) isCustom) name
      = some (sanitizeSetCount value) := by
  cases isCustom
  · have habs' : lookup s.items name = none := habs
    constructor
    · show lookup (setKey s.items name
        (max 0 (jsOrZero (lookup s.items name) + delta))) name = _
      rw [lookup_setKey_self, habs']
      show some (max 0 (0 + delta)) = _
      rw [zero_add]
    · exact lookup_setKey_self s.items name _
  · have habs' : lookup s.customItems name = none := habs
    constructor
    · show lookup (setKey s.customItems name
        (max 0 (jsOrZero (lookup s.customItems name) + delta))) name = _
      rw [lookup_setKey_self, habs']
      show some (max 0 (0 + delta)) = _
      rw [zero_add]
    · exact lookup_setKey_self s.customItems name _

/-- Witness for C9: the empty store has no key `"X"`; after
`updateCount("X", -3)` the key holds `max(0, -3) = 0`, after
`setCount("X", NaN)` it holds 0. -/
theorem absent_key_created_witness :
    lookup (targetMap (⟨[], []⟩ : CountStore) false) "X" = none ∧
    lookup (targetMap (updateCount ⟨[], []⟩ "X" (-3) false) false) "X" = some 0 ∧
    lookup (targetMap (setCount ⟨[], []⟩ "X" .nan false) false) "X" = some 0 :=
  ⟨by decide,
    (absent_key_created ⟨[], []⟩ "X" (-3) .nan false (by decide)).1,
    (absent_key_created ⟨[], []⟩ "X" (-3) .nan false (by decide)).2⟩

/-- C10: every Count Store operation touches only the map it targets and,
within it, only the named key: `updateCount`/`setCount` with
`isCustom = false` leave the custom map unchanged and no other predefined
key, and vice versa with `isCustom = true`; `addCustomItem` and
`removeCustomItem` leave the predefined map unchanged and no custom key
other than the (trimmed) name. -/
theorem countStore_frame (s : CountStore) (name k : String) (delta : Int)
    (value : JSNum) (hk : k ≠ name) (hkt : k ≠ jsTrim name) :
    (updateCount s name delta false).customItems = s.customItems ∧
    lookup (updateCount s name delta false).items k = lookup s.items k ∧
    (setCount s name value false).customItems = s.customItems ∧
    lookup (setCount s name value false).items k = lookup s.items k ∧
    (updateCount s name delta true).items = s.items ∧
    lookup (updateCount s name delta true).customItems k = lookup s.customItems k ∧
    (setCount s name value true).items = s.items ∧
    lookup (setCount s name value true).customItems k = lookup s.customItems k ∧
    (addCustomItem s name).items = s.items ∧
    lookup (addCustomItem s name).customItems k = lookup s.customItems k ∧
    (removeCustomItem s name).items = s.items ∧
    lookup (removeCustomItem s name).customItems k = lookup s.customItems k := by
  refine ⟨rfl, lookup_setKey_other _ _ _ _ hk, rfl, lookup_setKey_other _ _ _ _ hk,
    rfl, lookup_setKey_other _ _ _ _ hk, rfl, lookup_setKey_other _ _ _ _ hk,
    ?_, ?_, rfl, lookup_removeKey_other _ _ _ hk⟩
  · by_cases h : jsTrim name = "" <;> simp [addCustomItem, h]
  · by_cases h : jsTrim name = ""
    · simp [addCustomItem, h]
    · have hadd : addCustomItem s name =
          { s with customItems := setKey s.customItems (jsTrim name) 0 } := by
        simp [addCustomItem, h]
      rw [hadd]
      exact lookup_setKey_other _ _ _ _ hkt

/-- Witness for C10 at a concrete store: operations on `"A"` leave the key
`"B"` and the untargeted map intact. -/
theorem countStore_frame_witness :
    (updateCount ⟨[("A", 1), ("B", 2)], [("C", 7)]⟩ "A" 4 false).customItems
      = [("C", 7)] ∧
    lookup (updateCount ⟨[("A", 1), ("B", 2)], [("C", 7)]⟩ "A" 4 false).items "B"
      = lookup [("A", 1), ("B", 2)] "B" ∧
    (removeCustomItem ⟨[("A", 1), ("B", 2)], [("C", 7)]⟩ "A").items
      = [("A", 1), ("B", 2)] :=
  ⟨(countStore_frame ⟨[("A", 1), ("B", 2)], [("C", 7)]⟩ "A" "B" 4 .nan
      (by decide) (by decide)).1,
   (countStore_frame ⟨[("A", 1), ("B", 2)], [("C", 7)]⟩ "A" "B" 4 .nan
      (by decide) (by decide)).2.1,
   (countStore_frame ⟨[("A", 1), ("B", 2)], [("C", 7)]⟩ "A" "B" 4 .nan
      (by decide) (by decide)).2.2.2.2.2.2.2.2.2.2.1⟩


/-! ### Submission Recorder lemmas and claims -/

theorem childInserts_some {submissionId : Nat} {items : List (String × Int)}
    {oracle : Nat → Bool} {idx : Nat} {rows : List SubmissionItemRow}
    (h : childInserts submissionId items oracle idx = some rows) :
    rows = items.map (fun p => ⟨submissionId, p.1, p.2⟩) := by
  induction items generalizing idx rows with
  | nil =>
    simp only [childInserts, Option.some.injEq] at h
    simp [← h]
  | cons p rest ih =>
    unfold childInserts at h
    by_cases ho : oracle idx = true
    · rw [if_pos ho] at h
      exact absurd h (by simp)
    · rw [if_neg ho] at h
      obtain ⟨rows0, hr0, hcons⟩ := Option.map_eq_some'.mp h
      rw [← hcons, ih hr0]
      rfl

/-- C1 counterexample: with counts `{"A": 5}` and a run in which the child
`submission_items` insert fails, the call leaves the parent `submissions`
row committed while no child row exists — neither "all rows exist" nor
"none do" holds, so the parent-and-children insertion is not atomic. -/
theorem recordSubmission_not_atomic :
    (recordSubmission ⟨1, [], []⟩ [("A", 5)] ⟨"discord", none, none, true⟩
        (fun i => i == 1)).1 = none ∧
    ¬ ((parentRowOf ⟨1, [], []⟩ [("A", 5)] ⟨"discord", none, none, true⟩ ∈
          (recordSubmission ⟨1, [], []⟩ [("A", 5)] ⟨"discord", none, none, true⟩
            (fun i => i == 1)).2.submissions ∧
        (⟨1, "A", 5⟩ : SubmissionItemRow) ∈
          (recordSubmission ⟨1, [], []⟩ [("A", 5)] ⟨"discord", none, none, true⟩
            (fun i => i == 1)).2.submission_items) ∨
       (parentRowOf ⟨1, [], []⟩ [("A", 5)] ⟨"discord", none, none, true⟩ ∉
          (recordSubmission ⟨1, [], []⟩ [("A", 5)] ⟨"discord", none, none, true⟩
            (fun i => i == 1)).2.submissions ∧
        (⟨1, "A", 5⟩ : SubmissionItemRow) ∉
          (recordSubmission ⟨1, [], []⟩ [("A", 5)] ⟨"discord", none, none, true⟩
            (fun i => i == 1)).2.submission_items)) := by
  decide

/-- C1 amended: only the child-row inserts run inside the transaction, so
only they are all-or-nothing.  On normal return the parent row and one child
row per item with count > 0 all exist; when an insert fails no child row is
added, but the parent row remains committed whenever the failure happened in
a child insert (it is absent only when the parent insert itself failed). -/
theorem recordSubmission_children_atomic (db : DBState) (counts : ItemCounts)
    (opts : SubmissionOptions) (oracle : Nat → Bool) :
    ((recordSubmission db counts opts oracle).1.isSome = true →
      (recordSubmission db counts opts oracle).2.submissions
          = db.submissions ++ [parentRowOf db counts opts] ∧
      (recordSubmission db counts opts oracle).2.submission_items
          = db.submission_items ++ childRowsOf db counts) ∧
    ((recordSubmission db counts opts oracle).1 = none →
      (recordSubmission db counts opts oracle).2.submission_items
          = db.submission_items ∧
      ((recordSubmission db counts opts oracle).2.submissions = db.submissions ∨
       (recordSubmission db counts opts oracle).2.submissions
          = db.submissions ++ [parentRowOf db counts opts])) := by
  by_cases h0 : oracle 0 = true
  · refine ⟨fun hs => absurd hs (by simp [recordSubmission, h0]), fun _ => ?_⟩
    exact ⟨by simp [recordSubmission, h0], Or.inl (by simp [recordSubmission, h0])⟩
  · cases hc : childInserts db.nextId (counts.filter fun p => 0 < p.2) oracle 1 with
    | none =>
      refine ⟨fun hs => absurd hs (by simp [recordSubmission, h0, hc]), fun _ => ?_⟩
      exact ⟨by simp [recordSubmission, h0, hc],
        Or.inr (by simp [recordSubmission, h0, hc, parentRowOf])⟩
    | some rows =>
      refine ⟨fun _ => ⟨?_, ?_⟩, fun hn => absurd hn (by simp [recordSubmission, h0, hc])⟩
      · simp [recordSubmission, h0, hc, parentRowOf]
      · simp [recordSubmission, h0, hc, childRowsOf, childInserts_some hc]

/-- Witness for C1 amended: a run with no insert failures commits the parent
row and exactly the one child row for the single item with count > 0. -/
theorem recordSubmission_children_atomic_witness :
    (recordSubmission ⟨1, [], []⟩ [("A", 5), ("B", 0)]
        ⟨"discord", none, none, true⟩ (fun _ => false)).1.isSome = true ∧
    (recordSubmission ⟨1, [], []⟩ [("A", 5), ("B", 0)]
        ⟨"discord", none, none, true⟩ (fun _ => false)).2.submissions
      = [] ++ [parentRowOf ⟨1, [], []⟩ [("A", 5), ("B", 0)] ⟨"discord", none, none, true⟩] ∧
    (recordSubmission ⟨1, [], []⟩ [("A", 5), ("B", 0)]
        ⟨"discord", none, none, true⟩ (fun _ => false)).2.submission_items
      = [] ++ childRowsOf ⟨1, [], []⟩ [("A", 5), ("B", 0)] :=
  ⟨by decide,
    ((recordSubmission_children_atomic ⟨1, [], []⟩ [("A", 5), ("B", 0)]
        ⟨"discord", none, none, true⟩ (fun _ => false)).1 (by decide)).1,
    ((recordSubmission_children_atomic ⟨1, [], []⟩ [("A", 5), ("B", 0)]
        ⟨"discord", none, none, true⟩ (fun _ => false)).1 (by decide)).2⟩


/-! ### Upload Client lemmas and claims -/

theorem uploadLoop_calls_le (oracle : Nat → AttemptOutcome) (mr : Nat) :
    ∀ fuel attempt, (uploadLoop oracle mr attempt fuel).2 ≤ fuel := by
  intro fuel
  induction fuel with
  | zero =>
    intro attempt
    simp [uploadLoop]
  | succ fuel ih =>
    intro attempt
    unfold uploadLoop
    cases hA : attemptUpload (oracle attempt) with
    | some result =>
      by_cases hsucc : result.success = true
      · simp [hsucc]
      · by_cases hlast : (attempt == mr) = true
        · simp [hsucc, hlast]
        · simp only [hsucc, hlast, if_false, Bool.false_eq_true]
          simpa using Nat.succ_le_succ (ih (attempt + 1))
    | none =>
      by_cases hlast : (attempt == mr) = true
      · simp [hlast]
      · simp only [hlast, if_false, Bool.false_eq_true]
        simpa using Nat.succ_le_succ (ih (attempt + 1))

theorem uploadLoop_success (oracle : Nat → AttemptOutcome) (mr : Nat) :
    ∀ fuel attempt k, attempt ≤ k → k ≤ mr → k < attempt + fuel →
    (∀ i, attempt ≤ i → i < k → failsAttempt (oracle i) = true) →
    failsAttempt (oracle k) = false →
    ∃ res, attemptUpload (oracle k) = some res ∧ res.success = true ∧
      uploadLoop oracle mr attempt fuel = (res, k - attempt + 1) := by
  intro fuel
  induction fuel with
  | zero =>
    intro attempt k h1 _ h3 _ _
    omega
  | succ fuel ih =>
    intro attempt k h1 h2 h3 hfails hok
    rcases Nat.eq_or_lt_of_le h1 with heq | hlt
    · subst heq
      cases ho : oracle attempt with
      | ok code mid =>
        refine ⟨⟨true, mid, none, some code⟩, by simp [attemptUpload, ho], rfl, ?_⟩
        unfold uploadLoop
        simp [attemptUpload, ho, Nat.sub_self]
      | httpError code =>
        rw [ho] at hok
        simp [failsAttempt] at hok
      | timeout =>
        rw [ho] at hok
        simp [failsAttempt] at hok
      | exn =>
        rw [ho] at hok
        simp [failsAttempt] at hok
    · have hfa : failsAttempt (oracle attempt) = true := hfails attempt le_rfl hlt
      have hne : (attempt == mr) = false := by
        simp only [beq_eq_false_iff_ne, ne_eq]
        omega
      obtain ⟨res, hres, hsucc, hloop⟩ :=
        ih (attempt + 1) k hlt h2 (by omega) (fun i hi1 hi2 => hfails i (by omega) hi2) hok
      refine ⟨res, hres, hsucc, ?_⟩
      unfold uploadLoop
      cases ho : oracle attempt with
      | ok code mid =>
        rw [ho] at hfa
        simp [failsAttempt] at hfa
      | httpError code =>
        simp only [attemptUpload, ho, hne, if_false, Bool.false_eq_true, hloop]
        have : k - (attempt + 1) + 1 + 1 = k - attempt + 1 := by omega
        simp [this]
      | timeout =>
        simp only [attemptUpload, ho, hne, if_false, Bool.false_eq_true, hloop]
        have : k - (attempt + 1) + 1 + 1 = k - attempt + 1 := by omega
        simp [this]
      | exn =>
        simp only [attemptUpload, ho, hne, if_false, Bool.false_eq_true, hloop]
        have : k - (attempt + 1) + 1 + 1 = k - attempt + 1 := by omega
        simp [this]

theorem uploadLoop_allFail (oracle : Nat → AttemptOutcome) (mr : Nat) :
    ∀ fuel attempt, attempt ≤ mr → mr < attempt + fuel →
    (∀ i, attempt ≤ i → i ≤ mr → failsAttempt (oracle i) = true) →
    (uploadLoop oracle mr attempt fuel).1.success = false ∧
    (uploadLoop oracle mr attempt fuel).1.error = finalFailureError (oracle mr) ∧
    (uploadLoop oracle mr attempt fuel).2 = mr - attempt + 1 := by
  intro fuel
  induction fuel with
  | zero =>
    intro attempt h1 h2 _
    omega
  | succ fuel ih =>
    intro attempt h1 h2 hfails
    rcases Nat.eq_or_lt_of_le h1 with heq | hlt
    · subst heq
      have hfa : failsAttempt (oracle attempt) = true := hfails attempt le_rfl le_rfl
      unfold uploadLoop
      cases ho : oracle attempt with
      | ok code mid =>
        rw [ho] at hfa
        simp [failsAttempt] at hfa
      | httpError code =>
        simp [attemptUpload, ho, finalFailureError, Nat.sub_self]
      | timeout =>
        simp [attemptUpload, ho, finalFailureError, Nat.sub_self]
      | exn =>
        simp [attemptUpload, ho, finalFailureError, exhaustedResult, Nat.sub_self]
    · have hfa : failsAttempt (oracle attempt) = true :=
        hfails attempt le_rfl (Nat.le_of_lt hlt)
      have hne : (attempt == mr) = false := by
        simp only [beq_eq_false_iff_ne, ne_eq]
        omega
      obtain ⟨ha, hb, hc⟩ :=
        ih (attempt + 1) hlt (by omega) (fun i hi1 hi2 => hfails i (by omega) hi2)
      unfold uploadLoop
      cases ho : oracle attempt with
      | ok code mid =>
        rw [ho] at hfa
        simp [failsAttempt] at hfa
      | httpError code =>
        simp only [attemptUpload, ho, hne, if_false, Bool.false_eq_true]
        refine ⟨by simpa using ha, by simpa using hb, ?_⟩
        show (uploadLoop oracle mr (attempt + 1) fuel).2 + 1 = mr - attempt + 1
        omega
      | timeout =>
        simp only [attemptUpload, ho, hne, if_false, Bool.false_eq_true]
        refine ⟨by simpa using ha, by simpa using hb, ?_⟩
        show (uploadLoop oracle mr (attempt + 1) fuel).2 + 1 = mr - attempt + 1
        omega
      | exn =>
        simp only [attemptUpload, ho, hne, if_false, Bool.false_eq_true]
        refine ⟨by simpa using ha, by simpa using hb, ?_⟩
        show (uploadLoop oracle mr (attempt + 1) fuel).2 + 1 = mr - attempt + 1
        omega

/-- C3 counterexample: with every attempt failing by a non-success HTTP
status (400), `uploadImage` exhausts all three attempts (maxRetries = 2)
but returns the final attempt's specific error
(`"Discord webhook request failed"`), not the claimed
`"Upload failed after all retry attempts"`. -/
theorem uploadImage_allFail_error_not_generic :
    (uploadImage (fun _ => true)
        ⟨"https://discord.com/api/webhooks/1/x", some 2, none, none⟩ 0
        (fun _ => .httpError 400)).2 = 3 ∧
    (uploadImage (fun _ => true)
        ⟨"https://discord.com/api/webhooks/1/x", some 2, none, none⟩ 0
        (fun _ => .httpError 400)).1.success = false ∧
    (uploadImage (fun _ => true)
        ⟨"https://discord.com/api/webhooks/1/x", some 2, none, none⟩ 0
        (fun _ => .httpError 400)).1.error = some DISCORD_UPLOAD_FAILED ∧
    (uploadImage (fun _ => true)
        ⟨"https://discord.com/api/webhooks/1/x", some 2, none, none⟩ 0
        (fun _ => .httpError 400)).1.error ≠ some EXHAUSTED_RETRIES := by
  decide

/-- C3 amended: when the pre-checks pass and every one of the
`1 + maxRetries` attempts fails, the result is `{success: false}`; its error
string is `"Upload failed after all retry attempts"` exactly when the final
attempt failed with a thrown transport error — a final non-success HTTP
status surfaces `"Discord webhook request failed"` and a final timeout
surfaces `"Request timeout"` instead. -/
theorem uploadImage_exhausted (urlCheck : String → Bool)
    (cfg : DiscordServiceConfig) (imageSize : Nat) (oracle : Nat → AttemptOutcome)
    (hv : validateConfiguration urlCheck cfg.webhookUrl = [])
    (hs : imageSize ≤ MAX_FILE_SIZE_BYTES)
    (hfails : ∀ i, i ≤ effMaxRetries cfg → failsAttempt (oracle i) = true) :
    (uploadImage urlCheck cfg imageSize oracle).1.success = false ∧
    (uploadImage urlCheck cfg imageSize oracle).1.error
      = finalFailureError (oracle (effMaxRetries cfg)) := by
  unfold uploadImage
  rw [if_neg (by simp [hv]), if_neg (by omega)]
  obtain ⟨ha, hb, _⟩ := uploadLoop_allFail oracle (effMaxRetries cfg)
    (effMaxRetries cfg + 1) 0 (Nat.zero_le _) (by omega)
    (fun i _ hi2 => hfails i hi2)
  exact ⟨ha, hb⟩

/-- Witness for C3 amended: all three attempts throw, and the generic
exhausted-retries error is returned. -/
theorem uploadImage_exhausted_witness :
    (uploadImage (fun _ => true)
        ⟨"https://discord.com/api/webhooks/1/x", some 2, none, none⟩ 0
        (fun _ => .exn)).1.success = false ∧
    (uploadImage (fun _ => true)
        ⟨"https://discord.com/api/webhooks/1/x", some 2, none, none⟩ 0
        (fun _ => .exn)).1.error = some EXHAUSTED_RETRIES :=
  ⟨(uploadImage_exhausted (fun _ => true)
      ⟨"https://discord.com/api/webhooks/1/x", some 2, none, none⟩ 0
      (fun _ => .exn) (by decide) (by decide) (by decide)).1,
   ((uploadImage_exhausted (fun _ => true)
      ⟨"https://discord.com/api/webhooks/1/x", some 2, none, none⟩ 0
      (fun _ => .exn) (by decide) (by decide) (by decide)).2).trans (by decide)⟩

/-- C4: `uploadImage` invokes the transport at most `1 + maxRetries` times;
when the pre-checks pass, `k` failures followed by a success on attempt
`k + 1` (`k ≤ maxRetries`) yield `{success: true}` after exactly `k + 1`
invocations, and with `maxRetries = 2` and every attempt failing the
transport is invoked exactly 3 times. -/
theorem uploadImage_attempt_counts (urlCheck : String → Bool)
    (cfg : DiscordServiceConfig) (imageSize : Nat) (oracle : Nat → AttemptOutcome) :
    (uploadImage urlCheck cfg imageSize oracle).2 ≤ 1 + effMaxRetries cfg ∧
    (∀ k, validateConfiguration urlCheck cfg.webhookUrl = [] →
      imageSize ≤ MAX_FILE_SIZE_BYTES →
      k ≤ effMaxRetries cfg →
      (∀ i, i < k → failsAttempt (oracle i) = true) →
      failsAttempt (oracle k) = false →
      (uploadImage urlCheck cfg imageSize oracle).1.success = true ∧
      (uploadImage urlCheck cfg imageSize oracle).2 = k + 1) ∧
    (validateConfiguration urlCheck cfg.webhookUrl = [] →
      imageSize ≤ MAX_FILE_SIZE_BYTES →
      cfg.maxRetries = some 2 →
      (∀ i, i ≤ 2 → failsAttempt (oracle i) = true) →
      (uploadImage urlCheck cfg imageSize oracle).2 = 3) := by
  refine ⟨?_, ?_, ?_⟩
  · unfold uploadImage
    by_cases hv : validateConfiguration urlCheck cfg.webhookUrl = []
    · rw [if_neg (by simp [hv])]
      by_cases hsz : MAX_FILE_SIZE_BYTES < imageSize
      · rw [if_pos hsz]
        simp
      · rw [if_neg hsz]
        have := uploadLoop_calls_le oracle (effMaxRetries cfg) (effMaxRetries cfg + 1) 0
        omega
    · rw [if_pos hv]
      simp
  · intro k hv hsz hk hfails hok
    unfold uploadImage
    rw [if_neg (by simp [hv]), if_neg (by omega)]
    obtain ⟨res, _, hsucc, hloop⟩ := uploadLoop_success oracle (effMaxRetries cfg)
      (effMaxRetries cfg + 1) 0 k (Nat.zero_le k) hk (by omega)
      (fun i _ hi2 => hfails i hi2) hok
    rw [hloop]
    exact ⟨hsucc, by omega⟩
  · intro hv hsz hm hfails
    have hmr : effMaxRetries cfg = 2 := by
      simp [effMaxRetries, hm, jsOrNat]
    unfold uploadImage
    rw [if_neg (by simp [hv]), if_neg (by omega)]
    obtain ⟨_, _, hcount⟩ := uploadLoop_allFail oracle (effMaxRetries cfg)
      (effMaxRetries cfg + 1) 0 (Nat.zero_le _) (by omega)
      (fun i _ hi2 => hfails i (by omega))
    omega

/-- Witness for C4: two HTTP failures then a success give `success: true`
with exactly 3 transport calls, and three thrown failures with
`maxRetries = 2` also give exactly 3 calls. -/
theorem uploadImage_attempt_counts_witness :
    ((uploadImage (fun _ => true)
        ⟨"https://discord.com/api/webhooks/1/x", some 2, none, none⟩ 0
        (fun i => if i < 2 then .httpError 500 else .ok 200 none)).1.success = true ∧
     (uploadImage (fun _ => true)
        ⟨"https://discord.com/api/webhooks/1/x", some 2, none, none⟩ 0
        (fun i => if i < 2 then .httpError 500 else .ok 200 none)).2 = 2 + 1) ∧
    (uploadImage (fun _ => true)
        ⟨"https://discord.com/api/webhooks/1/x", some 2, none, none⟩ 0
        (fun _ => .exn)).2 = 3 :=
  ⟨(uploadImage_attempt_counts (fun _ => true)
      ⟨"https://discord.com/api/webhooks/1/x", some 2, none, none⟩ 0
      (fun i => if i < 2 then .httpError 500 else .ok 200 none)).2.1 2
      (by decide) (by decide) (by decide) (by decide) (by decide),
   (uploadImage_attempt_counts (fun _ => true)
      ⟨"https://discord.com/api/webhooks/1/x", some 2, none, none⟩ 0
      (fun _ => .exn)).2.2 (by decide) (by decide) (by decide) (by decide)⟩


/-! ### Image Compositor lemmas and claims -/

theorem flatMap_guard_eq_filter_map {α β : Type} (l : List α) (q : α → Prop)
    [DecidablePred q] (f : α → β) :
    (l.flatMap (fun a => if q a then [f a] else []))
      = (l.filter (fun a => q a)).map f := by
  induction l with
  | nil => rfl
  | cons a t ih =>
    simp only [List.flatMap_cons, List.filter_cons]
    by_cases h : q a
    · simp [h, ih]
    · simp [h, ih]

/-- C7 counterexample: the legacy `generateImage` of `src/app/page.tsx`
(also cited by the claim) renders every item of its three categories
unconditionally — an item with count 0 is drawn as the text `"0"` at its
coordinates instead of being skipped. -/
theorem pageDraw_renders_zero_count :
    jsOrZero (lookup [("T-shirts", 0)] "T-shirts") = 0 ∧
    pageDrawItemCounts [("T-shirts", 0)]
      [("Regular Laundry", [⟨"T-shirts", 150, 540⟩]),
       ("Home Items", []), ("Other Items", [])]
      = [⟨"0", 150, 540⟩] := by
  decide

/-- C7 amended: in the service compositor
(`CanvasImageGenerator.drawItemCounts`) the claim holds — for every item
across every category, the count (default 0 when absent) is rendered at the
item's `(x, y)` exactly when it is `> 0`, items at 0 or negative are skipped
and the renderer is total — but the legacy `generateImage` of
`src/app/page.tsx` instead draws every count unconditionally, zeros
included. -/
theorem drawItemCounts_renders_iff_positive (counts : ItemCounts)
    (categories : LaundryCategory) :
    drawItemCounts counts categories =
      ((categories.map Prod.snd).flatten.filter
          (fun item => 0 < jsOrZero (lookup counts item.name))).map
        (fun item => ⟨toString (jsOrZero (lookup counts item.name)), item.x, item.y⟩) := by
  unfold drawItemCounts drawIfPositive
  exact flatMap_guard_eq_filter_map _ _ _

/-- C8: whenever the template loads, the canvas context is available and the
surface encodes, `generateImage` returns `{success: true}` with an image and
no error — independently of whether the signature overlay loads — and a
failed signature load additionally produces the logged warning. -/
theorem generateImage_tolerates_signature_failure (env : RenderEnv)
    (opts : ImageGenerationOptions) (counts : ItemCounts)
    (categories : LaundryCategory)
    (ht : env.templateLoads = true) (hc : env.ctxAvailable = true)
    (he : env.encodeOk = true) :
    (generateImage env opts counts categories).1.success = true ∧
    (generateImage env opts counts categories).1.image.isSome = true ∧
    (generateImage env opts counts categories).1.error = none ∧
    (env.signatureLoads = false →
      (generateImage env opts counts categories).2
        = ["Failed to load signature image:"]) := by
  by_cases hsig : env.signatureLoads = true
  · refine ⟨?_, ?_, ?_, ?_⟩ <;>
      simp [generateImage, ht, hc, he, drawSignature, hsig]
  · have hsig' : env.signatureLoads = false := by simpa using hsig
    refine ⟨?_, ?_, ?_, ?_⟩ <;>
      simp [generateImage, ht, hc, he, drawSignature, hsig']

/-- Witness for C8: a run whose signature load fails but whose template,
context and encoder work still succeeds, and the warning is logged. -/
theorem generateImage_tolerates_signature_failure_witness :
    (generateImage ⟨true, true, false, true, "1/2/2025", 2025, 1, 2, 3, 4, 5⟩
        ⟨"/template.jpg", "/signature_bo.png"⟩ [("T-shirts", 2)]
        [("Regular Laundry", [⟨"T-shirts", 150, 540⟩])]).1.success = true ∧
    (generateImage ⟨true, true, false, true, "1/2/2025", 2025, 1, 2, 3, 4, 5⟩
        ⟨"/template.jpg", "/signature_bo.png"⟩ [("T-shirts", 2)]
        [("Regular Laundry", [⟨"T-shirts", 150, 540⟩])]).1.error = none ∧
    (generateImage ⟨true, true, false, true, "1/2/2025", 2025, 1, 2, 3, 4, 5⟩
        ⟨"/template.jpg", "/signature_bo.png"⟩ [("T-shirts", 2)]
        [("Regular Laundry", [⟨"T-shirts", 150, 540⟩])]).2
      = ["Failed to load signature image:"] :=
  ⟨(generateImage_tolerates_signature_failure
      ⟨true, true, false, true, "1/2/2025", 2025, 1, 2, 3, 4, 5⟩
      ⟨"/template.jpg", "/signature_bo.png"⟩ [("T-shirts", 2)]
      [("Regular Laundry", [⟨"T-shirts", 150, 540⟩])] rfl rfl rfl).1,
   (generateImage_tolerates_signature_failure
      ⟨true, true, false, true, "1/2/2025", 2025, 1, 2, 3, 4, 5⟩
      ⟨"/template.jpg", "/signature_bo.png"⟩ [("T-shirts", 2)]
      [("Regular Laundry", [⟨"T-shirts", 150, 540⟩])] rfl rfl rfl).2.2.1,
   (generateImage_tolerates_signature_failure
      ⟨true, true, false, true, "1/2/2025", 2025, 1, 2, 3, 4, 5⟩
      ⟨"/template.jpg", "/signature_bo.png"⟩ [("T-shirts", 2)]
      [("Regular Laundry", [⟨"T-shirts", 150, 540⟩])] rfl rfl rfl).2.2.2 rfl⟩

end Laundry



